import Mathlib

/-!
Shallow embedding of the chessify backend (node-backend sources) in Lean 4,
used to check the natural-language specification against the code.

Conventions of the embedding:
* WebSocket handles are modelled as natural numbers (`Socket`); JS reference
  equality `socket === other` becomes equality of handles.
* `Date` timestamps are natural numbers (milliseconds); callers pass `now`.
* The chess.js library is the external Legality Oracle: the position type is
  a parameter `Pos`, and an `Oracle Pos` record supplies `turn`, `move`
  (returning `none` where chess.js throws on an illegal move), `isGameOver`,
  `isCheckmate` and `isDraw`.
* Sending over a socket is modelled as emitting a `(Socket × OutMsg)` pair;
  the transport-level readyState check in `sendToPlayer` is not modelled
  (messages to a closed socket are dropped by the transport, which no claim
  depends on).
* Error envelopes carry only their `code` field; the human-readable message
  text is elided.
* Asynchrony is modelled by splitting each async operation at its await
  points into explicit state-transition functions, and by exposing process
  events (engine ready, engine close) as transition functions.
-/

namespace Chessify

/-- Socket handle (JS object identity of a WebSocket). -/
abbrev Socket := Nat

-- Constants from models/constants.ts
def GAME_STATUS_ACTIVE : String := "active"

def GAME_STATUS_COMPLETED : String := "completed"

def COLORS_WHITE : String := "white"

def COLORS_BLACK : String := "black"

def GAME_TYPES_HUMAN_VS_HUMAN : String := "human_vs_human"

def GAME_TYPES_HUMAN_VS_AI : String := "human_vs_ai"

/-- A chess move as in models/types.ts (`from`/`to` renamed: `from` is a
Lean keyword). -/
structure Move where
  fromSq : String
  toSq : String
  promotion : Option String
deriving DecidableEq, Repr

/-- Player record from models/types.ts. -/
structure Player where
  socket : Socket
  id : String
  isAI : Option Bool
deriving DecidableEq, Repr

/-- AI player options from models/types.ts (all fields optional). -/
structure AIPlayerOptions where
  skillLevel : Option Int
  searchDepth : Option Int
  color : Option String
deriving DecidableEq, Repr

/-- Outbound envelopes (models/types.ts responses). Error envelopes keep
only the `code`. -/
inductive OutMsg where
  | initGame (color : String) (gameType : String)
  | move (m : Move)
  | gameOver (winner : Option String) (reason : Option String)
  | error (code : String)
deriving DecidableEq, Repr

/-- The Legality Oracle: the view of chess.js the backend uses. `move`
returns `none` exactly where `chess.move` throws on an illegal move. -/
structure Oracle (Pos : Type) where
  turn : Pos → String
  move : Pos → Move → Option Pos
  isGameOver : Pos → Bool
  isCheckmate : Pos → Bool
  isDraw : Pos → Bool

/-! ## StockfishService (Decision Engine Bridge)

State of one `StockfishService` instance. `stockfishPresent` models
`this.stockfish !== null`; `pendingResolve` models
`this.movePromiseResolve !== null`. -/

structure StockfishService where
  stockfishPresent : Bool
  ready : Bool
  pendingResolve : Bool
  skillLevel : Int
  searchDepth : Int
deriving DecidableEq, Repr

/-- Constructor `new StockfishService(skillLevel, searchDepth)`: clamps the options and
spawns the engine process. `ready` stays false until the engine answers the
UCI handshake (see `StockfishService.configureEngine`). -/
def StockfishService.create (skillLevel searchDepth : Int) : StockfishService :=
  { stockfishPresent := true
    ready := false
    pendingResolve := false
    skillLevel := min 20 (max 0 skillLevel)
    searchDepth := min 20 (max 1 searchDepth) }

/-- The `uciok` handler path (`configureEngine`): sends option commands and
sets `ready = true`. -/
def StockfishService.configureEngine (s : StockfishService) : StockfishService :=
  { s with ready := true }

/-- The process `close` (or `error`) event handler: sets `ready = false`. -/
def StockfishService.onClose (s : StockfishService) : StockfishService :=
  { s with ready := false }

/-- Outcome of a `getBestMove` call as observed by the caller. -/
inductive GetBestMoveOutcome where
  /-- The executor threw (`engine not ready`), so the returned promise
  rejects immediately. -/
  | rejects
  /-- A pending resolution callback was recorded and the `position` / `go`
  commands were written to the engine process. -/
  | commandsSent
  /-- A pending resolution callback was recorded, but `sendCommand` found no
  process handle and wrote nothing: no reply can ever resolve the promise. -/
  | noCommandSent
deriving DecidableEq, Repr

/-- Method `getBestMove`: if the engine is not ready the promise executor throws
(the promise rejects); otherwise it stores the resolve callback and sends
`position fen ...` and `go depth ...` through `sendCommand`, which silently
does nothing when `this.stockfish` is null. -/
def StockfishService.getBestMove (s : StockfishService) :
    StockfishService × GetBestMoveOutcome :=
  if !s.ready then
    (s, GetBestMoveOutcome.rejects)
  else
    let s1 := { s with pendingResolve := true }
    if s1.stockfishPresent then
      (s1, GetBestMoveOutcome.commandsSent)
    else
      (s1, GetBestMoveOutcome.noCommandSent)

/-- Method `shutdown`: if a process handle exists, sends `quit` and drops the
handle. It does not touch `ready`; `ready` only becomes false when the
process `close`/`error` event later fires. -/
def StockfishService.shutdown (s : StockfishService) : StockfishService :=
  if s.stockfishPresent then { s with stockfishPresent := false } else s

/-! ## GameService (DualParty Session, services/GameService.ts) -/

structure GameService (Pos : Type) where
  id : String
  player1 : Player
  player2 : Player
  chess : Pos
  startTime : Nat
  status : String
  endTime : Option Nat
  winner : Option String
deriving DecidableEq, Repr

/-- Constructor `new GameService(player1, player2)`: fresh active game; sends both
players an `init_game` envelope (player1 gets white, player2 black). The
uuid is passed in as `freshId`. -/
def GameService.create (freshId : String) (player1 player2 : Player)
    (initialPos : Pos) (now : Nat) : GameService Pos × List (Socket × OutMsg) :=
  ({ id := freshId
     player1 := player1
     player2 := player2
     chess := initialPos
     startTime := now
     status := GAME_STATUS_ACTIVE
     endTime := none
     winner := none },
   [(player1.socket, OutMsg.initGame COLORS_WHITE GAME_TYPES_HUMAN_VS_HUMAN),
    (player2.socket, OutMsg.initGame COLORS_BLACK GAME_TYPES_HUMAN_VS_HUMAN)])

/-- Method `GameService.endGame(reason)`: marks complete, stamps the end time,
computes the winner, and notifies both players. -/
def GameService.endGame (O : Oracle Pos) (g : GameService Pos)
    (reason : Option String) (now : Nat) :
    GameService Pos × List (Socket × OutMsg) :=
  let g1 : GameService Pos :=
    { g with status := GAME_STATUS_COMPLETED, endTime := some now }
  let winner : Option String :=
    if O.isCheckmate g1.chess then
      some (if O.turn g1.chess == "w" then COLORS_BLACK else COLORS_WHITE)
    else if O.isDraw g1.chess then
      some "draw"
    else if reason == some "player_disconnected" then
      some "player_disconnected"
    else
      g1.winner
  let g2 : GameService Pos := { g1 with winner := winner }
  (g2,
   [(g2.player1.socket, OutMsg.gameOver g2.winner reason),
    (g2.player2.socket, OutMsg.gameOver g2.winner reason)])

/-- Method `GameService.makeMove(socket, move)`: turn check, legality via the
oracle, opponent notification, terminal check. The `Bool` is the TS return
value (game over after this move). -/
def GameService.makeMove (O : Oracle Pos) (g : GameService Pos)
    (socket : Socket) (m : Move) (now : Nat) :
    GameService Pos × List (Socket × OutMsg) × Bool :=
  let isWhiteTurn := O.turn g.chess == "w"
  let isPlayer1Socket := socket == g.player1.socket
  let isPlayer2Socket := socket == g.player2.socket
  if (isWhiteTurn && !isPlayer1Socket) || (!isWhiteTurn && !isPlayer2Socket) then
    (g, [(socket, OutMsg.error "not_your_turn")], false)
  else
    match O.move g.chess m with
    | none => (g, [(socket, OutMsg.error "invalid_move")], false)
    | some pos =>
      let opponent := if isPlayer1Socket then g.player2.socket else g.player1.socket
      let g1 : GameService Pos := { g with chess := pos }
      if O.isGameOver pos then
        let r := GameService.endGame O g1 none now
        (r.1, (opponent, OutMsg.move m) :: r.2, true)
      else
        (g1, [(opponent, OutMsg.move m)], false)

/-- Method `GameService.getGameState()` (pure read). -/
def GameService.getGameState (g : GameService Pos) :
    String × Player × Player × String × Nat × Option Nat × Option String × String :=
  (g.id, g.player1, g.player2, g.status, g.startTime, g.endTime, g.winner,
   GAME_TYPES_HUMAN_VS_HUMAN)

/-- Method `GameService.handleDisconnect(socket)`: no-op when already completed;
otherwise records the remaining player's color as winner (player1 is white)
and notifies the opponent. -/
def GameService.handleDisconnect (g : GameService Pos) (socket : Socket)
    (now : Nat) : GameService Pos × List (Socket × OutMsg) :=
  if g.status == GAME_STATUS_COMPLETED then
    (g, [])
  else
    let isPlayer1 := socket == g.player1.socket
    let opponent := if isPlayer1 then g.player2.socket else g.player1.socket
    let winner := if isPlayer1 then COLORS_BLACK else COLORS_WHITE
    ({ g with winner := some winner
              status := GAME_STATUS_COMPLETED
              endTime := some now },
     [(opponent, OutMsg.gameOver (some winner) (some "opponent_disconnected"))])

/-! ## AIGameService (PartyVsEngine Session, services/AIGameService.ts) -/

/-- JavaScript `x || d` on an optional number: both an absent value and an
explicit 0 are falsy and select the default. -/
def jsOrInt (x : Option Int) (d : Int) : Int :=
  match x with
  | none => d
  | some v => if v = 0 then d else v

structure AIGameService (Pos : Type) where
  id : String
  humanPlayer : Player
  aiPlayer : Player
  chess : Pos
  startTime : Nat
  status : String
  endTime : Option Nat
  winner : Option String
  stockfish : StockfishService
  humanPlayerColor : String
  aiPlayerColor : String
deriving DecidableEq, Repr

/-- Constructor `new AIGameService(humanPlayer, options)`. The uuids are passed in as
`freshId`/`aiId`; the unbiased color coin flip (`Math.random() < 0.5`) is
passed in as `coin`. The final `Bool` records whether the constructor
triggered `makeAIMove` (it does exactly when the engine holds white). -/
def AIGameService.create (humanPlayer : Player) (options : AIPlayerOptions)
    (coin : Bool) (freshId aiId : String) (initialPos : Pos) (now : Nat) :
    AIGameService Pos × List (Socket × OutMsg) × Bool :=
  let aiPlayer : Player := { id := aiId, socket := 0, isAI := some true }
  let skillLevel := jsOrInt options.skillLevel 10
  let searchDepth := jsOrInt options.searchDepth 12
  let stockfish := StockfishService.create skillLevel searchDepth
  let humanPlayerColor :=
    match options.color with
    | some c => c
    | none => if coin then COLORS_WHITE else COLORS_BLACK
  let aiPlayerColor :=
    if humanPlayerColor == COLORS_WHITE then COLORS_BLACK else COLORS_WHITE
  let g : AIGameService Pos :=
    { id := freshId
      humanPlayer := humanPlayer
      aiPlayer := aiPlayer
      chess := initialPos
      startTime := now
      status := GAME_STATUS_ACTIVE
      endTime := none
      winner := none
      stockfish := stockfish
      humanPlayerColor := humanPlayerColor
      aiPlayerColor := aiPlayerColor }
  (g,
   [(humanPlayer.socket, OutMsg.initGame humanPlayerColor GAME_TYPES_HUMAN_VS_AI)],
   aiPlayerColor == COLORS_WHITE)

/-- Method `AIGameService.endGame(reason)`: marks complete, stamps the end time,
computes the winner (including the `ai_error` → human branch), notifies the
human, and shuts the engine down. -/
def AIGameService.endGame (O : Oracle Pos) (g : AIGameService Pos)
    (reason : Option String) (now : Nat) :
    AIGameService Pos × List (Socket × OutMsg) :=
  let g1 : AIGameService Pos :=
    { g with status := GAME_STATUS_COMPLETED, endTime := some now }
  let winner : Option String :=
    if O.isCheckmate g1.chess then
      some (if O.turn g1.chess == "w" then COLORS_BLACK else COLORS_WHITE)
    else if O.isDraw g1.chess then
      some "draw"
    else if reason == some "player_disconnected" then
      some g1.aiPlayerColor
    else if reason == some "ai_error" then
      some g1.humanPlayerColor
    else
      g1.winner
  let g2 : AIGameService Pos :=
    { g1 with winner := winner, stockfish := g1.stockfish.shutdown }
  (g2, [(g2.humanPlayer.socket, OutMsg.gameOver g2.winner reason)])

/-- Method `AIGameService.makeHumanMove(move)`. The first `Bool` is the TS return
value (game over); the second records whether a `makeAIMove` was scheduled
via `setTimeout`. -/
def AIGameService.makeHumanMove (O : Oracle Pos) (g : AIGameService Pos)
    (m : Move) (now : Nat) :
    AIGameService Pos × List (Socket × OutMsg) × Bool × Bool :=
  let isWhiteTurn := O.turn g.chess == "w"
  let isHumanWhite := g.humanPlayerColor == COLORS_WHITE
  if (isWhiteTurn && !isHumanWhite) || (!isWhiteTurn && isHumanWhite) then
    (g, [(g.humanPlayer.socket, OutMsg.error "not_your_turn")], false, false)
  else
    match O.move g.chess m with
    | none => (g, [(g.humanPlayer.socket, OutMsg.error "invalid_move")], false, false)
    | some pos =>
      let g1 : AIGameService Pos := { g with chess := pos }
      if O.isGameOver pos then
        let r := AIGameService.endGame O g1 none now
        (r.1, r.2, true, false)
      else
        (g1, [], false, true)

/-- The part of `AIGameService.makeAIMove` that runs before the `await` on
`stockfish.getBestMove`: the status guard. Returns `true` exactly when an
engine request is issued (the method continues past the guard). -/
def AIGameService.makeAIMoveStart (g : AIGameService Pos) : Bool :=
  g.status == GAME_STATUS_ACTIVE

/-- The continuation of `AIGameService.makeAIMove` that runs when the
engine's reply `m` arrives (after the `await`). No status re-check occurs:
the move is applied to the board, pushed to the human player, and the
terminal check runs. An illegal reply makes `chess.move` throw, landing in
the catch block, which only sends `ai_engine_error`. -/
def AIGameService.makeAIMoveResume (O : Oracle Pos) (g : AIGameService Pos)
    (m : Move) (now : Nat) : AIGameService Pos × List (Socket × OutMsg) :=
  match O.move g.chess m with
  | none => (g, [(g.humanPlayer.socket, OutMsg.error "ai_engine_error")])
  | some pos =>
    let g1 : AIGameService Pos := { g with chess := pos }
    if O.isGameOver pos then
      let r := AIGameService.endGame O g1 none now
      (r.1, (g1.humanPlayer.socket, OutMsg.move m) :: r.2)
    else
      (g1, [(g1.humanPlayer.socket, OutMsg.move m)])

/-- The path of `AIGameService.makeAIMove` taken when
`stockfish.getBestMove` fails (rejects or throws): the catch block sends an
`ai_engine_error` envelope to the human and returns. It does not call
`endGame`. The status guard at the top of the method still applies. -/
def AIGameService.makeAIMoveEngineError (g : AIGameService Pos) :
    AIGameService Pos × List (Socket × OutMsg) :=
  if !(g.status == GAME_STATUS_ACTIVE) then
    (g, [])
  else
    (g, [(g.humanPlayer.socket, OutMsg.error "ai_engine_error")])

/-- Method `AIGameService.handleDisconnect()`. -/
def AIGameService.handleDisconnect (O : Oracle Pos) (g : AIGameService Pos)
    (now : Nat) : AIGameService Pos × List (Socket × OutMsg) :=
  if g.status == GAME_STATUS_COMPLETED then
    (g, [])
  else
    AIGameService.endGame O g (some "player_disconnected") now

/-- Method `AIGameService.getGameState()`: the player1/player2 slots are ordered by
color (white first), whichever side the human holds. -/
def AIGameService.getGameState (g : AIGameService Pos) :
    String × Player × Player × String × Nat × Option Nat × Option String × String :=
  (g.id,
   (if g.humanPlayerColor == COLORS_WHITE then g.humanPlayer else g.aiPlayer),
   (if g.humanPlayerColor == COLORS_WHITE then g.aiPlayer else g.humanPlayer),
   g.status, g.startTime, g.endTime, g.winner, GAME_TYPES_HUMAN_VS_AI)

/-- Method `AIGameService.shutdown()`. -/
def AIGameService.shutdown (O : Oracle Pos) (g : AIGameService Pos)
    (now : Nat) : AIGameService Pos × List (Socket × OutMsg) :=
  let g1 : AIGameService Pos := { g with stockfish := g.stockfish.shutdown }
  if g1.status == GAME_STATUS_ACTIVE then
    AIGameService.endGame O g1 (some "server_shutdown") now
  else
    (g1, [])

/-! ## Message schema (models/types.ts, Zod) -/

/-- Bound `z.number().min(0).max(20)` bound on `skillLevel`. -/
def skillLevelInRange (v : Int) : Bool :=
  0 ≤ v && v ≤ 20

/-- Bound `z.number().min(1).max(20)` bound on `searchDepth`. -/
def searchDepthInRange (v : Int) : Bool :=
  1 ≤ v && v ≤ 20

/-- Whether `InitAIGameMessageSchema` accepts the `options` object of an
`init_ai_game` payload (each field optional, bounds enforced, color an enum
of white/black). Parsing rejects — it never clamps. -/
def initAIGameSchemaAccepts (options : Option AIPlayerOptions) : Bool :=
  match options with
  | none => true
  | some o =>
    (match o.skillLevel with | none => true | some v => skillLevelInRange v) &&
    (match o.searchDepth with | none => true | some v => searchDepthInRange v) &&
    (match o.color with
     | none => true
     | some c => c == COLORS_WHITE || c == COLORS_BLACK)

/-! ## GameManagerService (services/GameManagerService.ts)

Only the state the claims touch is modelled: the games map (as an
association list keyed by game id, insertion-ordered) and the waiting
player slot. The `players` connection table and the cleanup timer handle
are omitted. -/

inductive AnyGame (Pos : Type) where
  | dual (g : GameService Pos)
  | ai (g : AIGameService Pos)
deriving DecidableEq, Repr

structure GameManagerService (Pos : Type) where
  games : List (String × AnyGame Pos)
  waitingPlayer : Option Player
deriving DecidableEq, Repr

def AnyGame.startTime : AnyGame Pos → Nat
  | AnyGame.dual g => g.startTime
  | AnyGame.ai g => g.startTime

/-- Method `game.endGame(reason)` dispatched over the two game classes. -/
def AnyGame.endGame (O : Oracle Pos) (g : AnyGame Pos) (reason : Option String)
    (now : Nat) : AnyGame Pos × List (Socket × OutMsg) :=
  match g with
  | AnyGame.dual g => let r := GameService.endGame O g reason now; (AnyGame.dual r.1, r.2)
  | AnyGame.ai g => let r := AIGameService.endGame O g reason now; (AnyGame.ai r.1, r.2)

/-- Method `handleInitGame(player)`: if someone is waiting, pair them (no check
that the waiting player differs from `player`, nor that `player` is already
in a game); otherwise `player` becomes the waiting player. -/
def GameManagerService.handleInitGame (mgr : GameManagerService Pos)
    (player : Player) (freshId : String) (initialPos : Pos) (now : Nat) :
    GameManagerService Pos × List (Socket × OutMsg) :=
  match mgr.waitingPlayer with
  | some w =>
    let r := GameService.create freshId w player initialPos now
    ({ mgr with games := mgr.games ++ [(freshId, AnyGame.dual r.1)]
                waitingPlayer := none },
     r.2)
  | none =>
    ({ mgr with waitingPlayer := some player }, [])

/-- Method `handleInitAIGame(player, options)`: builds an `AIGameService` and
stores it. Whether the bridge construction succeeds (Stockfish spawns) is
the environment's choice, passed as `engineOk`; on failure the catch block
sends `ai_initialization_failed` and stores nothing. -/
def GameManagerService.handleInitAIGame (mgr : GameManagerService Pos)
    (player : Player) (options : AIPlayerOptions) (engineOk : Bool)
    (coin : Bool) (freshId aiId : String) (initialPos : Pos) (now : Nat) :
    GameManagerService Pos × List (Socket × OutMsg) :=
  if engineOk then
    let r := AIGameService.create player options coin freshId aiId initialPos now
    ({ mgr with games := mgr.games ++ [(freshId, AnyGame.ai r.1)] }, r.2.1)
  else
    (mgr, [(player.socket, OutMsg.error "ai_initialization_failed")])

/-- The `handleMessage` path for an `init_ai_game` envelope: `validateMessage`
parses the payload against `InitAIGameMessageSchema`; a validation failure
is caught and answered with an `invalid_message` error envelope (no game is
created); on success the options object (or `{}` when absent) is handed to
`handleInitAIGame`. -/
def GameManagerService.handleInitAIGameMessage (mgr : GameManagerService Pos)
    (player : Player) (options : Option AIPlayerOptions) (engineOk : Bool)
    (coin : Bool) (freshId aiId : String) (initialPos : Pos) (now : Nat) :
    GameManagerService Pos × List (Socket × OutMsg) :=
  if initAIGameSchemaAccepts options then
    GameManagerService.handleInitAIGame mgr player
      (options.getD { skillLevel := none, searchDepth := none, color := none })
      engineOk coin freshId aiId initialPos now
  else
    (mgr, [(player.socket, OutMsg.error "invalid_message")])

/-- Whether `socket` belongs to one of the manager's stored games (the
`player1.socket === socket || player2.socket === socket` scan of
`handleMove`/`handleDisconnect`, via `getGameState`). -/
def AnyGame.hasSocket (g : AnyGame Pos) (socket : Socket) : Bool :=
  match g with
  | AnyGame.dual g => socket == g.player1.socket || socket == g.player2.socket
  | AnyGame.ai g =>
    socket == g.humanPlayer.socket || socket == g.aiPlayer.socket

def GameManagerService.socketInGame (mgr : GameManagerService Pos)
    (socket : Socket) : Bool :=
  mgr.games.any (fun e => e.2.hasSocket socket)

/-- Method `cleanupInactiveGames()`: every stored game whose elapsed time since
start exceeds the inactivity threshold is ended with reason `inactivity`
and removed from the games map. -/
def GameManagerService.cleanupInactiveGames (O : Oracle Pos)
    (mgr : GameManagerService Pos) (now threshold : Nat) :
    GameManagerService Pos × List (Socket × OutMsg) :=
  let expired := mgr.games.filter (fun e => threshold < now - e.2.startTime)
  let msgs := expired.flatMap (fun e => (AnyGame.endGame O e.2 (some "inactivity") now).2)
  ({ mgr with games := mgr.games.filter (fun e => !(threshold < now - e.2.startTime)) },
   msgs)

/-! ## Concrete test positions

A small executable instance of the Legality Oracle, used to evaluate the
definitions above on concrete inputs. A `TestPos` carries exactly the
observations the backend asks chess.js for; the toy move function flags a
move to square "mm" as checkmate, to square "dd" as a draw, and a move from
square "xx" as illegal. -/

structure TestPos where
  sideToMove : String
  mate : Bool
  draw : Bool
  over : Bool
  ply : Nat
deriving DecidableEq, Repr

def testOracle : Oracle TestPos :=
  { turn := fun p => p.sideToMove
    move := fun p m =>
      if m.fromSq == "xx" then none
      else
        some { sideToMove := if p.sideToMove == "w" then "b" else "w"
               mate := m.toSq == "mm"
               draw := m.toSq == "dd"
               over := m.toSq == "mm" || m.toSq == "dd"
               ply := p.ply + 1 }
    isGameOver := fun p => p.over
    isCheckmate := fun p => p.mate
    isDraw := fun p => p.draw }

/-- Starting position: white to move, nothing terminal. -/
def p0 : TestPos :=
  { sideToMove := "w", mate := false, draw := false, over := false, ply := 0 }

def e1 : Player := { socket := 1, id := "endpoint-1", isAI := none }

def e2 : Player := { socket := 2, id := "endpoint-2", isAI := none }

def mv1 : Move := { fromSq := "e2", toSq := "e4", promotion := none }

/-- An empty manager (fresh `GameManagerService`). -/
def mgr0 : GameManagerService TestPos := { games := [], waitingPlayer := none }

/-- A fresh dual game between `e1` (white) and `e2` (black). -/
def gDual0 : GameService TestPos := (GameService.create "g1" e1 e2 p0 0).1

/-- A fresh PartyVsEngine game: `e1` plays white, the engine black. -/
def gAI0 : AIGameService TestPos :=
  (AIGameService.create e1
    { skillLevel := none, searchDepth := none, color := some COLORS_WHITE }
    true "g1" "ai-1" p0 0).1

/-- A fresh PartyVsEngine game where the human `e1` plays black. -/
def gAIBlack : AIGameService TestPos :=
  (AIGameService.create e1
    { skillLevel := none, searchDepth := none, color := some COLORS_BLACK }
    true "g2" "ai-2" p0 0).1

/-! ## Theorems for the claims -/

/-- C1 (code_bug): on an Active PartyVsEngine session, the engine-error
path of `makeAIMove` sends the human an `ai_engine_error` envelope but does
not finalize the session: status stays `active` and no winner is recorded,
contradicting the claim that the session becomes Completed with the human
recorded as winner. The fourth conjunct evaluates the `ai_error` branch of
`AIGameService.endGame` — the dead branch that would record the human as
winner, showing the claimed behavior was the code's own intent: nothing
ever calls `endGame("ai_error")`. -/
theorem c1_engine_error_does_not_finalize :
    (AIGameService.makeAIMoveEngineError gAI0).1.status = GAME_STATUS_ACTIVE ∧
    (AIGameService.makeAIMoveEngineError gAI0).1.winner = none ∧
    (AIGameService.makeAIMoveEngineError gAI0).2 =
      [(e1.socket, OutMsg.error "ai_engine_error")] ∧
    (AIGameService.endGame testOracle gAI0 (some "ai_error") 5).1.winner =
      some COLORS_WHITE := by
  decide

/-- State after `e1` sends `init_game` once to an empty manager. -/
def c2s1 : GameManagerService TestPos :=
  (GameManagerService.handleInitGame mgr0 e1 "g1" p0 0).1

/-- State after `e1` sends `init_game` a second time. -/
def c2s2 : GameManagerService TestPos :=
  (GameManagerService.handleInitGame c2s1 e1 "g1" p0 0).1

/-- State after `e1` sends `init_game` a third time. -/
def c2s3 : GameManagerService TestPos :=
  (GameManagerService.handleInitGame c2s2 e1 "g2" p0 0).1

/-- C2 (counterexample): with `e1` alone in the Waiting Slot, a second
`init_game` from `e1` is not a no-op: a session is created with `e1` as
both participants and the slot is emptied. A third `init_game` then puts
`e1` back in the slot while `e1` still belongs to that session, so an
endpoint can occupy the slot and a session simultaneously. -/
theorem c2_counterexample :
    c2s1.waitingPlayer = some e1 ∧
    c2s2.games = [("g1", AnyGame.dual (GameService.create "g1" e1 e1 p0 0).1)] ∧
    (GameService.create "g1" e1 e1 p0 0).1.player1 = e1 ∧
    (GameService.create "g1" e1 e1 p0 0).1.player2 = e1 ∧
    c2s2.waitingPlayer = none ∧
    c2s3.waitingPlayer = some e1 ∧
    GameManagerService.socketInGame c2s3 e1.socket = true := by
  decide

/-- A manager holding the fresh dual game, as seen by the inactivity sweep. -/
def c3mgr : GameManagerService TestPos :=
  { games := [("g1", AnyGame.dual gDual0)], waitingPlayer := none }

/-- C3 (counterexample): finalizing a session by the inactivity sweep
(`endGame("inactivity")` on a non-terminal position) yields status
Completed with the winner still unset, so "winner is set iff status =
Completed" fails; the sweep's `game_over` envelopes carry no winner. -/
theorem c3_counterexample :
    (GameService.endGame testOracle gDual0 (some "inactivity") 99).1.status =
      GAME_STATUS_COMPLETED ∧
    (GameService.endGame testOracle gDual0 (some "inactivity") 99).1.winner = none ∧
    (GameManagerService.cleanupInactiveGames testOracle c3mgr 1800001 1800000).2 =
      [(e1.socket, OutMsg.gameOver none (some "inactivity")),
       (e2.socket, OutMsg.gameOver none (some "inactivity"))] ∧
    (GameManagerService.cleanupInactiveGames testOracle c3mgr 1800001 1800000).1.games =
      [] := by
  decide

/-- Options object carrying the out-of-range skill level 25. -/
def opts25 : AIPlayerOptions :=
  { skillLevel := some 25, searchDepth := none, color := none }

/-- C4 (counterexample): an `init_ai_game` whose options carry
`skillLevel: 25` IS rejected — `InitAIGameMessageSchema` refuses it, the
sender gets an `invalid_message` error envelope, and no session is
created; the value is never clamped to 20 on this path. -/
theorem c4_counterexample :
    initAIGameSchemaAccepts (some opts25) = false ∧
    (GameManagerService.handleInitAIGameMessage mgr0 e1 (some opts25)
        true true "g1" "ai-1" p0 0).1.games = [] ∧
    (GameManagerService.handleInitAIGameMessage mgr0 e1 (some opts25)
        true true "g1" "ai-1" p0 0).2 =
      [(e1.socket, OutMsg.error "invalid_message")] := by
  decide

/-- C5 (code_bug): an explicitly supplied in-range strength of 0 — which
the schema accepts — is not passed through: `options.skillLevel || 10`
treats the explicit 0 as absent (JS falsiness), so the engine is configured
with skill level 10 instead of 0, contradicting both the claim and the
code's own comment that the default applies only when the option is not
provided. -/
theorem c5_explicit_zero_strength_becomes_ten :
    jsOrInt (some 0) 10 = 10 ∧
    initAIGameSchemaAccepts
      (some { skillLevel := some 0, searchDepth := none, color := none }) = true ∧
    (AIGameService.create e1
        { skillLevel := some 0, searchDepth := none, color := some COLORS_WHITE }
        true "g1" "ai-1" p0 0).1.stockfish.skillLevel = 10 := by
  decide

/-- A bridge that has completed the UCI handshake (ready). -/
def sfReady : StockfishService := (StockfishService.create 10 12).configureEngine

/-- C6 (counterexample): calling `getBestMove` right after `shutdown` —
before the asynchronous process close event clears `ready` — does not
fail: the executor passes the ready check, records a pending resolve
callback, and `sendCommand` writes nothing because the process handle is
null, so the promise neither rejects nor can ever resolve. -/
theorem c6_counterexample :
    ((sfReady.shutdown).getBestMove).2 = GetBestMoveOutcome.noCommandSent ∧
    ¬(((sfReady.shutdown).getBestMove).2 = GetBestMoveOutcome.rejects) ∧
    ((sfReady.shutdown).getBestMove).1.pendingResolve = true := by
  decide

/-- The fresh PartyVsEngine game after the human disconnected (session
finalized while an engine request may still be pending). -/
def gAIDone : AIGameService TestPos :=
  (AIGameService.handleDisconnect testOracle gAI0 3).1

/-- C7 (counterexample): a pending engine reply arriving after the session
was finalized is not a no-op: `makeAIMove` re-checks nothing after its
await, so the reply is applied to the board (the position changes) and a
`move` envelope is pushed to the human of the Completed session. -/
theorem c7_counterexample :
    gAIDone.status = GAME_STATUS_COMPLETED ∧
    ¬((AIGameService.makeAIMoveResume testOracle gAIDone mv1 9).1.chess =
        gAIDone.chess) ∧
    (AIGameService.makeAIMoveResume testOracle gAIDone mv1 9).2 =
      [(e1.socket, OutMsg.move mv1)] := by
  decide

/-- C2 (amended): requestDualMatch performs no occupancy checks. If the
Waiting Slot holds some endpoint W — even the requester itself — the
request creates a DualParty session between W and the requester and clears
the slot, so a second `init_game` from the sole waiting occupant E creates
a session with E as both participants; and since no session-membership
check is made either, a request with the slot empty always places the
requester into the slot, even when they already belong to a session. -/
theorem c2_amended {Pos : Type} (mgr : GameManagerService Pos) (E : Player)
    (freshId : String) (pos : Pos) (now : Nat) :
    (mgr.waitingPlayer = some E →
      (GameManagerService.handleInitGame mgr E freshId pos now).1.games =
        mgr.games ++
          [(freshId, AnyGame.dual (GameService.create freshId E E pos now).1)] ∧
      (GameService.create freshId E E pos now).1.player1 = E ∧
      (GameService.create freshId E E pos now).1.player2 = E ∧
      (GameManagerService.handleInitGame mgr E freshId pos now).1.waitingPlayer =
        none) ∧
    (mgr.waitingPlayer = none →
      (GameManagerService.handleInitGame mgr E freshId pos now).1.waitingPlayer =
        some E ∧
      (GameManagerService.handleInitGame mgr E freshId pos now).1.games =
        mgr.games) := by
  constructor
  · intro h
    simp [GameManagerService.handleInitGame, h, GameService.create]
  · intro h
    simp [GameManagerService.handleInitGame, h]

/-- Witness for C2 (amended), at the concrete state where `e1` already
occupies the Waiting Slot. -/
theorem c2_amended_witness :
    c2s1.waitingPlayer = some e1 ∧
    ((GameManagerService.handleInitGame c2s1 e1 "g1" p0 0).1.games =
        c2s1.games ++
          [("g1", AnyGame.dual (GameService.create "g1" e1 e1 p0 0).1)] ∧
      (GameService.create "g1" e1 e1 p0 0).1.player1 = e1 ∧
      (GameService.create "g1" e1 e1 p0 0).1.player2 = e1 ∧
      (GameManagerService.handleInitGame c2s1 e1 "g1" p0 0).1.waitingPlayer =
        none) :=
  ⟨by decide, (c2_amended c2s1 e1 "g1" p0 0).1 (by decide)⟩

/-- The half of the C3 invariant the code maintains: a set winner implies
status Completed, and the end time is set iff status Completed. -/
def GameService.inv (g : GameService Pos) : Prop :=
  (g.winner.isSome = true → g.status = GAME_STATUS_COMPLETED) ∧
  (g.endTime.isSome = true ↔ g.status = GAME_STATUS_COMPLETED)

/-- The same invariant for PartyVsEngine sessions. -/
def AIGameService.inv (g : AIGameService Pos) : Prop :=
  (g.winner.isSome = true → g.status = GAME_STATUS_COMPLETED) ∧
  (g.endTime.isSome = true ↔ g.status = GAME_STATUS_COMPLETED)

theorem GameService.inv_endGame {Pos : Type} (O : Oracle Pos)
    (g : GameService Pos) (reason : Option String) (now : Nat) :
    (GameService.endGame O g reason now).1.inv := by
  unfold GameService.endGame GameService.inv
  simp

theorem GameService.inv_makeMove {Pos : Type} (O : Oracle Pos)
    (g : GameService Pos) (socket : Socket) (m : Move) (now : Nat)
    (h : g.inv) : (GameService.makeMove O g socket m now).1.inv := by
  unfold GameService.makeMove
  dsimp only
  repeat' split
  all_goals first
  | exact h
  | exact GameService.inv_endGame O _ none now

theorem GameService.inv_create {Pos : Type} (freshId : String)
    (p1 p2 : Player) (pos : Pos) (now : Nat) :
    (GameService.create freshId p1 p2 pos now).1.inv := by
  unfold GameService.create GameService.inv
  simp [GAME_STATUS_ACTIVE, GAME_STATUS_COMPLETED]

theorem GameService.inv_handleDisconnect {Pos : Type} (g : GameService Pos)
    (socket : Socket) (now : Nat) (h : g.inv) :
    (GameService.handleDisconnect g socket now).1.inv := by
  unfold GameService.handleDisconnect
  dsimp only
  split
  · exact h
  · unfold GameService.inv
    simp

theorem AIGameService.inv_endGameAI {Pos : Type} (O : Oracle Pos)
    (g : AIGameService Pos) (reason : Option String) (now : Nat) :
    (AIGameService.endGame O g reason now).1.inv := by
  unfold AIGameService.endGame AIGameService.inv
  simp

theorem AIGameService.inv_createAI {Pos : Type} (human : Player)
    (options : AIPlayerOptions) (coin : Bool) (freshId aiId : String)
    (pos : Pos) (now : Nat) :
    (AIGameService.create human options coin freshId aiId pos now).1.inv := by
  unfold AIGameService.create AIGameService.inv
  simp [GAME_STATUS_ACTIVE, GAME_STATUS_COMPLETED]

theorem AIGameService.inv_makeHumanMove {Pos : Type} (O : Oracle Pos)
    (g : AIGameService Pos) (m : Move) (now : Nat) (h : g.inv) :
    (AIGameService.makeHumanMove O g m now).1.inv := by
  unfold AIGameService.makeHumanMove
  dsimp only
  repeat' split
  all_goals first
  | exact h
  | exact AIGameService.inv_endGameAI O _ none now

theorem AIGameService.inv_makeAIMoveResume {Pos : Type} (O : Oracle Pos)
    (g : AIGameService Pos) (m : Move) (now : Nat) (h : g.inv) :
    (AIGameService.makeAIMoveResume O g m now).1.inv := by
  unfold AIGameService.makeAIMoveResume
  dsimp only
  repeat' split
  all_goals first
  | exact h
  | exact AIGameService.inv_endGameAI O _ none now

theorem AIGameService.inv_makeAIMoveEngineError {Pos : Type}
    (g : AIGameService Pos) (h : g.inv) :
    (AIGameService.makeAIMoveEngineError g).1.inv := by
  unfold AIGameService.makeAIMoveEngineError
  split
  · exact h
  · exact h

theorem AIGameService.inv_handleDisconnectAI {Pos : Type} (O : Oracle Pos)
    (g : AIGameService Pos) (now : Nat) (h : g.inv) :
    (AIGameService.handleDisconnect O g now).1.inv := by
  unfold AIGameService.handleDisconnect
  split
  · exact h
  · exact AIGameService.inv_endGameAI O _ _ now

theorem AIGameService.inv_shutdown {Pos : Type} (O : Oracle Pos)
    (g : AIGameService Pos) (now : Nat) (h : g.inv) :
    (AIGameService.shutdown O g now).1.inv := by
  unfold AIGameService.shutdown
  dsimp only
  split
  · exact AIGameService.inv_endGameAI O _ _ now
  · exact h

theorem GameService.endGame_inactivity_winner {Pos : Type} (O : Oracle Pos)
    (g : GameService Pos) (now : Nat)
    (hmate : O.isCheckmate g.chess = false) (hdraw : O.isDraw g.chess = false) :
    (GameService.endGame O g (some "inactivity") now).1.winner = g.winner := by
  unfold GameService.endGame
  dsimp only
  simp [hmate, hdraw]

theorem AIGameService.endGame_inactivity_winnerAI {Pos : Type} (O : Oracle Pos)
    (g : AIGameService Pos) (now : Nat)
    (hmate : O.isCheckmate g.chess = false) (hdraw : O.isDraw g.chess = false) :
    (AIGameService.endGame O g (some "inactivity") now).1.winner = g.winner := by
  unfold AIGameService.endGame
  dsimp only
  simp [hmate, hdraw]

/-- C3 (amended): the code maintains only part of the claimed invariant:
across every session operation of both contest kinds, a set winner implies
status Completed and the end time is set iff status Completed. The converse
direction "Completed implies winner set" does not hold: finalization by the
inactivity sweep (reason `inactivity` on a non-terminal position) leaves
the winner unset — no winner is implied by inactivity (last two
conjuncts). -/
theorem c3_amended {Pos : Type} (O : Oracle Pos) :
    (∀ (freshId : String) (p1 p2 : Player) (pos : Pos) (now : Nat),
      (GameService.create freshId p1 p2 pos now).1.inv) ∧
    (∀ (g : GameService Pos) (socket : Socket) (m : Move) (now : Nat),
      g.inv → (GameService.makeMove O g socket m now).1.inv) ∧
    (∀ (g : GameService Pos) (reason : Option String) (now : Nat),
      (GameService.endGame O g reason now).1.inv) ∧
    (∀ (g : GameService Pos) (socket : Socket) (now : Nat),
      g.inv → (GameService.handleDisconnect g socket now).1.inv) ∧
    (∀ (human : Player) (options : AIPlayerOptions) (coin : Bool)
       (freshId aiId : String) (pos : Pos) (now : Nat),
      (AIGameService.create human options coin freshId aiId pos now).1.inv) ∧
    (∀ (g : AIGameService Pos) (m : Move) (now : Nat),
      g.inv → (AIGameService.makeHumanMove O g m now).1.inv) ∧
    (∀ (g : AIGameService Pos) (reason : Option String) (now : Nat),
      (AIGameService.endGame O g reason now).1.inv) ∧
    (∀ (g : AIGameService Pos) (m : Move) (now : Nat),
      g.inv → (AIGameService.makeAIMoveResume O g m now).1.inv) ∧
    (∀ (g : AIGameService Pos),
      g.inv → (AIGameService.makeAIMoveEngineError g).1.inv) ∧
    (∀ (g : AIGameService Pos) (now : Nat),
      g.inv → (AIGameService.handleDisconnect O g now).1.inv) ∧
    (∀ (g : AIGameService Pos) (now : Nat),
      g.inv → (AIGameService.shutdown O g now).1.inv) ∧
    (∀ (g : GameService Pos) (now : Nat),
      O.isCheckmate g.chess = false → O.isDraw g.chess = false →
      (GameService.endGame O g (some "inactivity") now).1.winner = g.winner) ∧
    (∀ (g : AIGameService Pos) (now : Nat),
      O.isCheckmate g.chess = false → O.isDraw g.chess = false →
      (AIGameService.endGame O g (some "inactivity") now).1.winner = g.winner) :=
  ⟨fun freshId p1 p2 pos now => GameService.inv_create freshId p1 p2 pos now,
   fun g socket m now h => GameService.inv_makeMove O g socket m now h,
   fun g reason now => GameService.inv_endGame O g reason now,
   fun g socket now h => GameService.inv_handleDisconnect g socket now h,
   fun human options coin freshId aiId pos now =>
     AIGameService.inv_createAI human options coin freshId aiId pos now,
   fun g m now h => AIGameService.inv_makeHumanMove O g m now h,
   fun g reason now => AIGameService.inv_endGameAI O g reason now,
   fun g m now h => AIGameService.inv_makeAIMoveResume O g m now h,
   fun g h => AIGameService.inv_makeAIMoveEngineError g h,
   fun g now h => AIGameService.inv_handleDisconnectAI O g now h,
   fun g now h => AIGameService.inv_shutdown O g now h,
   fun g now hmate hdraw => GameService.endGame_inactivity_winner O g now hmate hdraw,
   fun g now hmate hdraw => AIGameService.endGame_inactivity_winnerAI O g now hmate hdraw⟩

/-- Witness for C3 (amended), at a concrete session: the invariant holds of
the fresh dual game and is preserved by a move, and the inactivity
finalization of that game keeps its winner unset. -/
theorem c3_amended_witness :
    gDual0.inv ∧
    (GameService.makeMove testOracle gDual0 1 mv1 5).1.inv ∧
    (GameService.endGame testOracle gDual0 (some "inactivity") 99).1.winner =
      gDual0.winner :=
  ⟨by unfold GameService.inv; decide,
   (c3_amended testOracle).2.1 gDual0 1 mv1 5 (by unfold GameService.inv; decide),
   (c3_amended testOracle).2.2.2.2.2.2.2.2.2.2.2.1 gDual0 99 (by decide) (by decide)⟩

/-- C4 (amended): an `init_ai_game` whose options fail the schema bounds
(such as skillLevel 25) is rejected: the sender gets `invalid_message` and
the manager is unchanged — no session is created. The clamping into
[0,20] and [1,20] lives only in the engine-bridge constructor, where 25
would become 20 and the configured values are always in range; it is not
reached through the message path. Requests whose options pass the schema
(with the bridge spawning successfully) do create a session. -/
theorem c4_amended {Pos : Type} (mgr : GameManagerService Pos)
    (player : Player) (options : Option AIPlayerOptions) (coin : Bool)
    (freshId aiId : String) (pos : Pos) (now : Nat) :
    (initAIGameSchemaAccepts options = false →
      GameManagerService.handleInitAIGameMessage mgr player options true coin
          freshId aiId pos now =
        (mgr, [(player.socket, OutMsg.error "invalid_message")])) ∧
    ((StockfishService.create 25 12).skillLevel = 20) ∧
    (∀ s b : Int,
      0 ≤ (StockfishService.create s b).skillLevel ∧
      (StockfishService.create s b).skillLevel ≤ 20 ∧
      1 ≤ (StockfishService.create s b).searchDepth ∧
      (StockfishService.create s b).searchDepth ≤ 20) ∧
    (initAIGameSchemaAccepts options = true →
      (GameManagerService.handleInitAIGameMessage mgr player options true coin
          freshId aiId pos now).1.games.length = mgr.games.length + 1) := by
  refine ⟨?_, by decide, ?_, ?_⟩
  · intro h
    simp [GameManagerService.handleInitAIGameMessage, h]
  · intro s b
    unfold StockfishService.create
    refine ⟨?_, ?_, ?_, ?_⟩ <;> simp
  · intro h
    simp [GameManagerService.handleInitAIGameMessage, h,
      GameManagerService.handleInitAIGame]

/-- Witness for C4 (amended): the rejection branch at skillLevel 25 and
the creation branch at skillLevel 20 on the empty manager. -/
theorem c4_amended_witness :
    GameManagerService.handleInitAIGameMessage mgr0 e1 (some opts25) true true
        "g1" "ai-1" p0 0 =
      (mgr0, [(e1.socket, OutMsg.error "invalid_message")]) ∧
    (GameManagerService.handleInitAIGameMessage mgr0 e1
        (some { skillLevel := some 20, searchDepth := none,
                color := some COLORS_WHITE })
        true true "g1" "ai-1" p0 0).1.games.length = mgr0.games.length + 1 :=
  ⟨(c4_amended mgr0 e1 (some opts25) true "g1" "ai-1" p0 0).1 (by decide),
   (c4_amended mgr0 e1
      (some { skillLevel := some 20, searchDepth := none,
              color := some COLORS_WHITE }) true "g1" "ai-1" p0 0).2.2.2
     (by decide)⟩

theorem StockfishService.shutdown_ready (s : StockfishService) :
    s.shutdown.ready = s.ready := by
  unfold StockfishService.shutdown
  split <;> rfl

theorem StockfishService.shutdown_stockfishPresent (s : StockfishService) :
    s.shutdown.stockfishPresent = false := by
  unfold StockfishService.shutdown
  split
  · rfl
  · rename_i h
    simpa using h

/-- C6 (amended): after `shutdown`, a `requestMove` fails only once the
engine process close/error event has cleared `ready`. A call made after
`shutdown` while `ready` is still true (the close event is asynchronous)
does not fail: it records a pending resolve callback but writes no command
(the process handle is null), so the returned promise is left without any
resolution. -/
theorem c6_amended (s : StockfishService) :
    (s.ready = true →
      (s.shutdown.getBestMove).2 = GetBestMoveOutcome.noCommandSent ∧
      (s.shutdown.getBestMove).1.pendingResolve = true ∧
      (s.shutdown.getBestMove).1.stockfishPresent = false) ∧
    (s.ready = false →
      (s.shutdown.getBestMove).2 = GetBestMoveOutcome.rejects) ∧
    ((s.shutdown.onClose).getBestMove).2 = GetBestMoveOutcome.rejects := by
  refine ⟨?_, ?_, ?_⟩
  · intro h
    unfold StockfishService.getBestMove
    simp [StockfishService.shutdown_ready, StockfishService.shutdown_stockfishPresent, h]
  · intro h
    unfold StockfishService.getBestMove
    simp [StockfishService.shutdown_ready, h]
  · unfold StockfishService.getBestMove StockfishService.onClose
    simp

/-- Witness for C6 (amended), on a ready bridge. -/
theorem c6_amended_witness :
    sfReady.ready = true ∧
    (sfReady.shutdown.getBestMove).2 = GetBestMoveOutcome.noCommandSent ∧
    (sfReady.shutdown.getBestMove).1.pendingResolve = true ∧
    (sfReady.shutdown.getBestMove).1.stockfishPresent = false :=
  ⟨by decide, (c6_amended sfReady).1 (by decide)⟩

/-- C7 (amended): only engine-move invocations that begin after the
session was finalized are no-ops (the status guard runs before the request
is issued); a reply that arrives for a request that was already pending
when the session was finalized is still applied — the board position is
replaced by the reply's result, the status is left as it was, and a `move`
envelope is pushed to the human. -/
theorem c7_amended {Pos : Type} (O : Oracle Pos) (g : AIGameService Pos)
    (m : Move) (now : Nat) :
    (¬(g.status = GAME_STATUS_ACTIVE) → AIGameService.makeAIMoveStart g = false) ∧
    (∀ pos : Pos, O.move g.chess m = some pos → O.isGameOver pos = false →
      (AIGameService.makeAIMoveResume O g m now).1.chess = pos ∧
      (AIGameService.makeAIMoveResume O g m now).1.status = g.status ∧
      (AIGameService.makeAIMoveResume O g m now).2 =
        [(g.humanPlayer.socket, OutMsg.move m)]) := by
  constructor
  · intro h
    unfold AIGameService.makeAIMoveStart
    simp [h]
  · intro pos hmove hover
    unfold AIGameService.makeAIMoveResume
    simp [hmove, hover]

/-- Witness for C7 (amended), at the disconnected (Completed) session with
a legal pending reply. -/
theorem c7_amended_witness :
    AIGameService.makeAIMoveStart gAIDone = false ∧
    (AIGameService.makeAIMoveResume testOracle gAIDone mv1 9).1.status =
      gAIDone.status :=
  ⟨(c7_amended testOracle gAIDone mv1 9).1 (by decide),
   ((c7_amended testOracle gAIDone mv1 9).2
      { sideToMove := "b", mate := false, draw := false, over := false, ply := 1 }
      (by decide) (by decide)).2.1⟩

/-- C8 (confirmed): in an Active session of either contest kind, a move
submitted by the participant whose color is not the side-to-move is
answered with a `not_your_turn` error envelope sent only to that
participant, and the session value is returned unchanged — position and
status untouched (it stays Active) and the opponent receives nothing. In
the dual game player1 holds white and player2 black; in the engine game
the human's color field decides. -/
theorem c8_not_your_turn_rejected {Pos : Type} (O : Oracle Pos) :
    (∀ (g : GameService Pos) (socket : Socket) (m : Move) (now : Nat),
      g.player1.socket ≠ g.player2.socket →
      ((O.turn g.chess = "w" ∧ socket = g.player2.socket) ∨
       (¬(O.turn g.chess = "w") ∧ socket = g.player1.socket)) →
      GameService.makeMove O g socket m now =
        (g, [(socket, OutMsg.error "not_your_turn")], false)) ∧
    (∀ (g : AIGameService Pos) (m : Move) (now : Nat),
      ((O.turn g.chess = "w" ∧ ¬(g.humanPlayerColor = COLORS_WHITE)) ∨
       (¬(O.turn g.chess = "w") ∧ g.humanPlayerColor = COLORS_WHITE)) →
      AIGameService.makeHumanMove O g m now =
        (g, [(g.humanPlayer.socket, OutMsg.error "not_your_turn")], false,
         false)) := by
  constructor
  · rintro g socket m now hne (⟨ht, hs⟩ | ⟨ht, hs⟩)
    · subst hs
      unfold GameService.makeMove
      simp [ht, Ne.symm hne]
    · subst hs
      unfold GameService.makeMove
      simp [ht, hne]
  · rintro g m now (⟨ht, hc⟩ | ⟨ht, hc⟩)
    · unfold AIGameService.makeHumanMove
      simp [ht, hc]
    · unfold AIGameService.makeHumanMove
      simp [ht, hc]

/-- Witness for C8, on the fresh dual game (white to move, black submits)
and the engine game where the human holds black (white to move). -/
theorem c8_witness :
    GameService.makeMove testOracle gDual0 e2.socket mv1 5 =
      (gDual0, [(e2.socket, OutMsg.error "not_your_turn")], false) ∧
    AIGameService.makeHumanMove testOracle gAIBlack mv1 5 =
      (gAIBlack, [(gAIBlack.humanPlayer.socket, OutMsg.error "not_your_turn")],
       false, false) :=
  ⟨(c8_not_your_turn_rejected testOracle).1 gDual0 e2.socket mv1 5 (by decide)
      (Or.inl ⟨by decide, by decide⟩),
   (c8_not_your_turn_rejected testOracle).2 gAIBlack mv1 5
      (Or.inl ⟨by decide, by decide⟩)⟩

/-- C9 (confirmed): for both contest kinds, `endGame` computes the winner
from the final position: on checkmate the winner is the side not on move
(white to move mated → winner black, black to move mated → winner white,
i.e. the side that delivered the mate), and on a draw-class outcome the
winner is the string "draw". -/
theorem c9_terminal_winner {Pos : Type} (O : Oracle Pos) :
    (∀ (g : GameService Pos) (reason : Option String) (now : Nat),
      O.isCheckmate g.chess = true →
      ((O.turn g.chess = "w" →
        (GameService.endGame O g reason now).1.winner = some COLORS_BLACK) ∧
       (¬(O.turn g.chess = "w") →
        (GameService.endGame O g reason now).1.winner = some COLORS_WHITE))) ∧
    (∀ (g : GameService Pos) (reason : Option String) (now : Nat),
      O.isCheckmate g.chess = false → O.isDraw g.chess = true →
      (GameService.endGame O g reason now).1.winner = some "draw") ∧
    (∀ (g : AIGameService Pos) (reason : Option String) (now : Nat),
      O.isCheckmate g.chess = true →
      ((O.turn g.chess = "w" →
        (AIGameService.endGame O g reason now).1.winner = some COLORS_BLACK) ∧
       (¬(O.turn g.chess = "w") →
        (AIGameService.endGame O g reason now).1.winner = some COLORS_WHITE))) ∧
    (∀ (g : AIGameService Pos) (reason : Option String) (now : Nat),
      O.isCheckmate g.chess = false → O.isDraw g.chess = true →
      (AIGameService.endGame O g reason now).1.winner = some "draw") := by
  refine ⟨?_, ?_, ?_, ?_⟩
  · intro g reason now hmate
    constructor <;> intro ht <;> unfold GameService.endGame <;> simp [hmate, ht]
  · intro g reason now hmate hdraw
    unfold GameService.endGame
    simp [hmate, hdraw]
  · intro g reason now hmate
    constructor <;> intro ht <;> unfold AIGameService.endGame <;> simp [hmate, ht]
  · intro g reason now hmate hdraw
    unfold AIGameService.endGame
    simp [hmate, hdraw]

/-- A position in which black is to move and checkmated. -/
def pMateB : TestPos :=
  { sideToMove := "b", mate := true, draw := false, over := true, ply := 5 }

/-- A drawn terminal position. -/
def pDraw : TestPos :=
  { sideToMove := "w", mate := false, draw := true, over := true, ply := 6 }

/-- Witness for C9: checkmate with black on move gives white the win in
the dual game; a draw-class ending gives "draw" in the engine game. -/
theorem c9_witness :
    (GameService.endGame testOracle { gDual0 with chess := pMateB } none 9).1.winner =
      some COLORS_WHITE ∧
    (AIGameService.endGame testOracle { gAI0 with chess := pDraw } none 9).1.winner =
      some "draw" :=
  ⟨((c9_terminal_winner testOracle).1 { gDual0 with chess := pMateB } none 9
      (by decide)).2 (by decide),
   (c9_terminal_winner testOracle).2.2.2 { gAI0 with chess := pDraw } none 9
      (by decide) (by decide)⟩

/-- C10 (confirmed): player1 is always the white participant and player2
the black one. In a DualParty pairing the waiting (first-arrived) endpoint
becomes player1 and is announced white, the requester player2/black, and
the stored game exposes exactly that order through getGameState; in a
PartyVsEngine session the getGameState slots are ordered by color whichever
side the human holds, and the constructor always assigns opposite colors.
The disconnect-winner computation relies on the ordering: disconnecting
player1 awards black (player2's color) and vice versa, with the
notification going to the remaining player's socket. -/
theorem c10_player1_is_white {Pos : Type} :
    (∀ (mgr : GameManagerService Pos) (w p : Player) (freshId : String)
       (pos : Pos) (now : Nat),
      mgr.waitingPlayer = some w →
      (GameManagerService.handleInitGame mgr p freshId pos now).1.games.getLast? =
        some (freshId, AnyGame.dual (GameService.create freshId w p pos now).1) ∧
      (GameService.create freshId w p pos now).1.player1 = w ∧
      (GameService.create freshId w p pos now).1.player2 = p ∧
      GameService.getGameState (GameService.create freshId w p pos now).1 =
        (freshId, w, p, GAME_STATUS_ACTIVE, now, none, none,
         GAME_TYPES_HUMAN_VS_HUMAN) ∧
      (GameService.create freshId w p pos now).2 =
        [(w.socket, OutMsg.initGame COLORS_WHITE GAME_TYPES_HUMAN_VS_HUMAN),
         (p.socket, OutMsg.initGame COLORS_BLACK GAME_TYPES_HUMAN_VS_HUMAN)]) ∧
    (∀ (g : AIGameService Pos),
      (g.humanPlayerColor = COLORS_WHITE →
        (AIGameService.getGameState g).2.1 = g.humanPlayer ∧
        (AIGameService.getGameState g).2.2.1 = g.aiPlayer) ∧
      (¬(g.humanPlayerColor = COLORS_WHITE) →
        (AIGameService.getGameState g).2.1 = g.aiPlayer ∧
        (AIGameService.getGameState g).2.2.1 = g.humanPlayer)) ∧
    (∀ (human : Player) (options : AIPlayerOptions) (coin : Bool)
       (freshId aiId : String) (pos : Pos) (now : Nat),
      (options.color = some COLORS_WHITE ∨ options.color = some COLORS_BLACK ∨
        options.color = none) →
      ((AIGameService.create human options coin freshId aiId pos
          now).1.humanPlayerColor = COLORS_WHITE ∧
       (AIGameService.create human options coin freshId aiId pos
          now).1.aiPlayerColor = COLORS_BLACK) ∨
      ((AIGameService.create human options coin freshId aiId pos
          now).1.humanPlayerColor = COLORS_BLACK ∧
       (AIGameService.create human options coin freshId aiId pos
          now).1.aiPlayerColor = COLORS_WHITE)) ∧
    (∀ (g : GameService Pos) (socket : Socket) (now : Nat),
      ¬(g.status = GAME_STATUS_COMPLETED) →
      ((socket = g.player1.socket →
        (GameService.handleDisconnect g socket now).1.winner =
          some COLORS_BLACK ∧
        (GameService.handleDisconnect g socket now).2 =
          [(g.player2.socket,
            OutMsg.gameOver (some COLORS_BLACK)
              (some "opponent_disconnected"))]) ∧
       (¬(socket = g.player1.socket) →
        (GameService.handleDisconnect g socket now).1.winner =
          some COLORS_WHITE ∧
        (GameService.handleDisconnect g socket now).2 =
          [(g.player1.socket,
            OutMsg.gameOver (some COLORS_WHITE)
              (some "opponent_disconnected"))]))) := by
  refine ⟨?_, ?_, ?_, ?_⟩
  · intro mgr w p freshId pos now h
    refine ⟨?_, rfl, rfl, rfl, rfl⟩
    simp [GameManagerService.handleInitGame, h]
  · intro g
    constructor <;> intro h <;> unfold AIGameService.getGameState <;> simp [h]
  · rintro human options coin freshId aiId pos now (hc | hc | hc) <;>
      unfold AIGameService.create <;> rw [hc]
    · left
      exact ⟨rfl, rfl⟩
    · right
      exact ⟨rfl, rfl⟩
    · cases coin
      · right
        exact ⟨rfl, rfl⟩
      · left
        exact ⟨rfl, rfl⟩
  · intro g socket now h
    constructor
    · intro hs
      subst hs
      unfold GameService.handleDisconnect
      simp [h]
    · intro hs
      unfold GameService.handleDisconnect
      simp [h, hs]

/-- A manager with `e1` waiting for a dual pairing. -/
def mgrWaiting : GameManagerService TestPos :=
  { games := [], waitingPlayer := some e1 }

/-- Witness for C10: the waiting player `e1` becomes white player1, the
engine game with a white human lists the human first, and disconnecting
player1 of the dual game awards black. -/
theorem c10_witness :
    (GameService.create "g1" e1 e2 p0 0).1.player1 = e1 ∧
    (AIGameService.getGameState gAI0).2.1 = gAI0.humanPlayer ∧
    (GameService.handleDisconnect gDual0 e1.socket 7).1.winner =
      some COLORS_BLACK :=
  ⟨((@c10_player1_is_white TestPos).1 mgrWaiting e1 e2 "g1" p0 0
      (by decide)).2.1,
   (((@c10_player1_is_white TestPos).2.1 gAI0).1 (by decide)).1,
   (((@c10_player1_is_white TestPos).2.2.2 gDual0 e1.socket 7
      (by decide)).1 (by decide)).1⟩

end Chessify
